import Mathlib

/-!
Verification of the meeting-transcription session engine
(`transcribeMeetingChunk` in `src/server/src/handlers/transcribe_meeting.ts`).

Shallow embedding conventions:
* `Uint8Array` / `ArrayBuffer` audio fragments become `List Nat` of byte values;
  the possibly-absent `audio_chunk` field becomes `Option (List Nat)`.
* The process-wide `transcriptionSessions` map becomes an association list
  threaded through the handler; `Map.get`/`Map.set` keep insertion order,
  overwriting in place on an existing key like the JavaScript `Map`.
* `randomUUID()` and `new Date()` are nondeterministic; the handler takes the
  generated identifier `freshId` and the timestamp `now` as extra parameters.
* The JavaScript float comparison `avgValue < t` (with `avgValue = sum / size`
  over integer byte values) is embedded exactly as the cross-multiplied
  integer comparison `sum < t * size`; for `size = 0` the source computes
  `NaN`, and `NaN < t` is `false`, which the cross-multiplied form
  (`0 < 0 = false`) reproduces.
* `setTimeout(() => delete, 5000)` is modelled by returning the list of
  scheduled evictions `(sessionId, delayMs)`; nothing is removed synchronously.
* Thrown `Error`s are modelled by `TError`: the two "required" messages map to
  `invalidInput`, the `Session workspace_id mismatch` message to
  `workspaceMismatch`.
-/

/-- A transcription session as stored in `transcriptionSessions`. -/
structure Session where
  workspace_id : String
  accumulated_text : String
  chunk_count : Nat
  created_at : Nat
deriving Repr, DecidableEq

/-- The in-memory session store: `sessionId → Session`, as an association list. -/
abbrev Store := List (String × Session)

/-- `Map.get`: first binding of the key, if any. -/
def Store.get : Store → String → Option Session
  | [], _ => none
  | (k, v) :: rest, key => if k = key then some v else Store.get rest key

/-- `Map.set`: overwrite an existing binding in place, else append. -/
def Store.set : Store → String → Session → Store
  | [], key, v => [(key, v)]
  | (k, w) :: rest, key, v =>
      if k = key then (k, v) :: rest else (k, w) :: Store.set rest key v

/-- Input of `transcribeMeetingChunk` (`TranscribeChunkInput`). -/
structure TranscribeChunkInput where
  audio_chunk : Option (List Nat)
  workspace_id : String
  session_id : Option String
deriving Repr, DecidableEq

/-- Output of `transcribeMeetingChunk` (`TranscriptionResult`). -/
structure TranscriptionResult where
  partial_transcript : String
  session_id : String
  is_final : Bool
deriving Repr, DecidableEq

/-- The errors the handler can throw. -/
inductive TError where
  | invalidInput
  | workspaceMismatch
deriving Repr, DecidableEq

/-- `audioData.reduce((sum, byte) => sum + byte, 0)`. -/
def byteSum (audioData : List Nat) : Nat :=
  audioData.foldl (fun sum byte => sum + byte) 0

/-- The exact arithmetic mean `byteSum / length` of the byte values, as a
rational number (used only to state claims about the mean; the source's float
comparisons are embedded as cross-multiplied integer comparisons). -/
def meanAmplitude (audioData : List Nat) : ℚ :=
  (byteSum audioData : ℚ) / (audioData.length : ℚ)

/-- `processAudioChunk`: deterministic mock transcription.  Each
`avgValue < t` in the source is the cross-multiplied `byteSum < t * length`. -/
def processAudioChunk (audioData : List Nat) (chunkNumber : Nat) : String :=
  if audioData.length < 100 then ""
  else if byteSum audioData < 50 * audioData.length then
    (if chunkNumber = 1 then "Hello" else "and")
  else if byteSum audioData < 100 * audioData.length then
    (if chunkNumber = 1 then "Welcome" else "everyone")
  else if byteSum audioData < 150 * audioData.length then
    (if chunkNumber = 1 then "Good morning" else "to the meeting")
  else (if chunkNumber = 1 then "Thank you" else "for joining us today")

/-- `shouldMarkAsFinal`: final after 5 chunks, or on near-silence
(`avgValue < 10`, embedded as `byteSum < 10 * length`; for the empty list the
source compares `NaN < 10 = false`, matched here by `0 < 0 = false`). -/
def shouldMarkAsFinal (audioData : List Nat) (chunkCount : Nat) : Bool :=
  if 5 ≤ chunkCount then true
  else decide (byteSum audioData < 10 * audioData.length)

/-- `input.session_id || randomUUID()`: the empty string is falsy. -/
def resolveSessionId : Option String → String → String
  | none, freshId => freshId
  | some s, freshId => if s = "" then freshId else s

/-- The `map.get` / create-and-`map.set` block of the handler: returns the
session to work on and the store as it stands after the block. -/
def getOrCreate (store : Store) (sessionId workspaceId : String) (now : Nat) :
    Session × Store :=
  match Store.get store sessionId with
  | some s => (s, store)
  | none =>
      (⟨workspaceId, "", 0, now⟩, Store.set store sessionId ⟨workspaceId, "", 0, now⟩)

/-- `String.prototype.trim()`: drop whitespace from both ends.  (Defined by
structural recursion over the character list so that it evaluates by `rfl`;
Lean's `String.trim` computes the same strings but is stated through
`Substring` auxiliaries that do not kernel-reduce.) -/
def trimString (s : String) : String :=
  ⟨((s.data.dropWhile Char.isWhitespace).reverse.dropWhile Char.isWhitespace).reverse⟩

/-- `acc ? `acc chunkText` : chunkText`: append with a single space, no
leading space on an empty accumulator. -/
def appendToken (acc tok : String) : String :=
  if acc = "" then tok else acc ++ " " ++ tok

/-- The in-place mutation of the session object: `chunk_count++`, then append
the chunk's token when it is non-empty after trimming. -/
def stepSession (session : Session) (audioData : List Nat) : Session :=
  { session with
    chunk_count := session.chunk_count + 1,
    accumulated_text :=
      if trimString (processAudioChunk audioData (session.chunk_count + 1)) = "" then
        session.accumulated_text
      else
        appendToken session.accumulated_text
          (processAudioChunk audioData (session.chunk_count + 1)) }

/-- `transcribeMeetingChunk`.  Returns the thrown error or the result together
with the scheduled evictions, paired with the store as the call leaves it. -/
def transcribeMeetingChunk (store : Store) (input : TranscribeChunkInput)
    (freshId : String) (now : Nat) :
    Except TError (TranscriptionResult × List (String × Nat)) × Store :=
  match input.audio_chunk with
  | none => (Except.error TError.invalidInput, store)
  | some audioData =>
      if audioData.length = 0 then (Except.error TError.invalidInput, store)
      else if input.workspace_id = "" then (Except.error TError.invalidInput, store)
      else
        if (getOrCreate store (resolveSessionId input.session_id freshId)
              input.workspace_id now).1.workspace_id ≠ input.workspace_id then
          (Except.error TError.workspaceMismatch,
           (getOrCreate store (resolveSessionId input.session_id freshId)
              input.workspace_id now).2)
        else
          (Except.ok
            (⟨(stepSession (getOrCreate store (resolveSessionId input.session_id freshId)
                  input.workspace_id now).1 audioData).accumulated_text,
              resolveSessionId input.session_id freshId,
              shouldMarkAsFinal audioData
                ((getOrCreate store (resolveSessionId input.session_id freshId)
                    input.workspace_id now).1.chunk_count + 1)⟩,
             if shouldMarkAsFinal audioData
                 ((getOrCreate store (resolveSessionId input.session_id freshId)
                     input.workspace_id now).1.chunk_count + 1) then
               [(resolveSessionId input.session_id freshId, 5000)]
             else []),
           Store.set
             (getOrCreate store (resolveSessionId input.session_id freshId)
                input.workspace_id now).2
             (resolveSessionId input.session_id freshId)
             (stepSession (getOrCreate store (resolveSessionId input.session_id freshId)
                input.workspace_id now).1 audioData))

/-- The accumulated text the store holds for a session id before a call
(empty when the session does not exist yet). -/
def priorText (store : Store) (sessionId : String) : String :=
  match Store.get store sessionId with
  | some s => s.accumulated_text
  | none => ""

/-- The classifier token table exactly as the spec words it: buckets of the
exact arithmetic mean of the byte values, specialized on whether this is the
first chunk of the session.  (Spec-side definition, to be compared with the
source-side `processAudioChunk`.) -/
def specClassifierToken (bytes : List Nat) (position : Nat) : String :=
  if meanAmplitude bytes < 50 then (if position = 1 then "Hello" else "and")
  else if meanAmplitude bytes < 100 then
    (if position = 1 then "Welcome" else "everyone")
  else if meanAmplitude bytes < 150 then
    (if position = 1 then "Good morning" else "to the meeting")
  else (if position = 1 then "Thank you" else "for joining us today")

theorem Store.get_set_self (st : Store) (k : String) (v : Session) :
    Store.get (Store.set st k v) k = some v := by
  induction st with
  | nil => simp [Store.set, Store.get]
  | cons hd tl ih =>
      obtain ⟨k0, v0⟩ := hd
      by_cases hk : k0 = k
      · simp [Store.set, Store.get, hk]
      · simp [Store.set, Store.get, hk, ih]

theorem Store.set_set (st : Store) (k : String) (v w : Session) :
    Store.set (Store.set st k v) k w = Store.set st k w := by
  induction st with
  | nil => simp [Store.set]
  | cons hd tl ih =>
      obtain ⟨k0, v0⟩ := hd
      by_cases hk : k0 = k
      · simp [Store.set, hk]
      · simp [Store.set, hk, ih]

theorem getOrCreate_some (store : Store) (sid wid : String) (now : Nat)
    (s : Session) (h : Store.get store sid = some s) :
    getOrCreate store sid wid now = (s, store) := by
  simp [getOrCreate, h]

theorem getOrCreate_none (store : Store) (sid wid : String) (now : Nat)
    (h : Store.get store sid = none) :
    getOrCreate store sid wid now =
      (⟨wid, "", 0, now⟩, Store.set store sid ⟨wid, "", 0, now⟩) := by
  simp [getOrCreate, h]

theorem getOrCreate_fst_text (store : Store) (sid wid : String) (now : Nat) :
    (getOrCreate store sid wid now).1.accumulated_text = priorText store sid := by
  unfold getOrCreate priorText
  cases Store.get store sid <;> rfl

theorem mean_lt_cast_iff (l : List Nat) (t : Nat) (h : l.length ≠ 0) :
    meanAmplitude l < (t : ℚ) ↔ byteSum l < t * l.length := by
  have hpos : (0 : ℚ) < (l.length : ℚ) := by
    exact_mod_cast Nat.pos_of_ne_zero h
  unfold meanAmplitude
  rw [div_lt_iff₀ hpos]
  constructor
  · intro hc; exact_mod_cast hc
  · intro hc; exact_mod_cast hc

theorem mean_lt10_iff (l : List Nat) (h : l.length ≠ 0) :
    meanAmplitude l < 10 ↔ byteSum l < 10 * l.length := by
  rw [show (10 : ℚ) = ((10 : Nat) : ℚ) by norm_cast]
  exact mean_lt_cast_iff l 10 h

theorem mean_lt50_iff (l : List Nat) (h : l.length ≠ 0) :
    meanAmplitude l < 50 ↔ byteSum l < 50 * l.length := by
  rw [show (50 : ℚ) = ((50 : Nat) : ℚ) by norm_cast]
  exact mean_lt_cast_iff l 50 h

theorem mean_lt100_iff (l : List Nat) (h : l.length ≠ 0) :
    meanAmplitude l < 100 ↔ byteSum l < 100 * l.length := by
  rw [show (100 : ℚ) = ((100 : Nat) : ℚ) by norm_cast]
  exact mean_lt_cast_iff l 100 h

theorem mean_lt150_iff (l : List Nat) (h : l.length ≠ 0) :
    meanAmplitude l < 150 ↔ byteSum l < 150 * l.length := by
  rw [show (150 : ℚ) = ((150 : Nat) : ℚ) by norm_cast]
  exact mean_lt_cast_iff l 150 h

theorem shouldMarkAsFinal_true_iff (l : List Nat) (c : Nat) (h : l.length ≠ 0) :
    shouldMarkAsFinal l c = true ↔ (5 ≤ c ∨ meanAmplitude l < 10) := by
  unfold shouldMarkAsFinal
  by_cases hc : 5 ≤ c
  · simp [hc]
  · simp [hc, mean_lt10_iff l h]

theorem transcribe_none (store : Store) (input : TranscribeChunkInput)
    (freshId : String) (now : Nat) (ha : input.audio_chunk = none) :
    transcribeMeetingChunk store input freshId now =
      (Except.error TError.invalidInput, store) := by
  simp only [transcribeMeetingChunk, ha]

theorem transcribe_nil (store : Store) (input : TranscribeChunkInput)
    (freshId : String) (now : Nat) (bytes : List Nat)
    (ha : input.audio_chunk = some bytes) (h0 : bytes.length = 0) :
    transcribeMeetingChunk store input freshId now =
      (Except.error TError.invalidInput, store) := by
  simp only [transcribeMeetingChunk, ha]
  rw [if_pos h0]

theorem transcribe_empty_ws (store : Store) (input : TranscribeChunkInput)
    (freshId : String) (now : Nat) (bytes : List Nat)
    (ha : input.audio_chunk = some bytes) (h0 : bytes.length ≠ 0)
    (hw : input.workspace_id = "") :
    transcribeMeetingChunk store input freshId now =
      (Except.error TError.invalidInput, store) := by
  simp only [transcribeMeetingChunk, ha]
  rw [if_neg h0, if_pos hw]

theorem transcribe_mismatch_eq (store : Store) (input : TranscribeChunkInput)
    (freshId : String) (now : Nat) (bytes : List Nat)
    (ha : input.audio_chunk = some bytes) (h0 : bytes.length ≠ 0)
    (hw : input.workspace_id ≠ "")
    (hm : (getOrCreate store (resolveSessionId input.session_id freshId)
            input.workspace_id now).1.workspace_id ≠ input.workspace_id) :
    transcribeMeetingChunk store input freshId now =
      (Except.error TError.workspaceMismatch,
       (getOrCreate store (resolveSessionId input.session_id freshId)
          input.workspace_id now).2) := by
  simp only [transcribeMeetingChunk, ha]
  rw [if_neg h0, if_neg hw, if_pos hm]

theorem transcribe_ok_eq (store : Store) (input : TranscribeChunkInput)
    (freshId : String) (now : Nat) (bytes : List Nat)
    (ha : input.audio_chunk = some bytes) (h0 : bytes.length ≠ 0)
    (hw : input.workspace_id ≠ "")
    (hm : (getOrCreate store (resolveSessionId input.session_id freshId)
            input.workspace_id now).1.workspace_id = input.workspace_id) :
    transcribeMeetingChunk store input freshId now =
      (Except.ok
        (⟨(stepSession (getOrCreate store (resolveSessionId input.session_id freshId)
              input.workspace_id now).1 bytes).accumulated_text,
          resolveSessionId input.session_id freshId,
          shouldMarkAsFinal bytes
            ((getOrCreate store (resolveSessionId input.session_id freshId)
                input.workspace_id now).1.chunk_count + 1)⟩,
         if shouldMarkAsFinal bytes
             ((getOrCreate store (resolveSessionId input.session_id freshId)
                 input.workspace_id now).1.chunk_count + 1) then
           [(resolveSessionId input.session_id freshId, 5000)]
         else []),
       Store.set
         (getOrCreate store (resolveSessionId input.session_id freshId)
            input.workspace_id now).2
         (resolveSessionId input.session_id freshId)
         (stepSession (getOrCreate store (resolveSessionId input.session_id freshId)
            input.workspace_id now).1 bytes)) := by
  simp only [transcribeMeetingChunk, ha]
  rw [if_neg h0, if_neg hw, if_neg (fun hne => hne hm)]

theorem transcribe_ok_inv (store : Store) (input : TranscribeChunkInput)
    (freshId : String) (now : Nat) (res : TranscriptionResult)
    (ev : List (String × Nat)) (st' : Store)
    (h : transcribeMeetingChunk store input freshId now = (Except.ok (res, ev), st')) :
    ∃ bytes, input.audio_chunk = some bytes ∧ bytes.length ≠ 0 ∧
      input.workspace_id ≠ "" ∧
      (getOrCreate store (resolveSessionId input.session_id freshId)
          input.workspace_id now).1.workspace_id = input.workspace_id ∧
      res = ⟨(stepSession (getOrCreate store (resolveSessionId input.session_id freshId)
                input.workspace_id now).1 bytes).accumulated_text,
             resolveSessionId input.session_id freshId,
             shouldMarkAsFinal bytes
               ((getOrCreate store (resolveSessionId input.session_id freshId)
                   input.workspace_id now).1.chunk_count + 1)⟩ ∧
      ev = (if shouldMarkAsFinal bytes
                ((getOrCreate store (resolveSessionId input.session_id freshId)
                    input.workspace_id now).1.chunk_count + 1) then
              [(resolveSessionId input.session_id freshId, 5000)] else []) ∧
      st' = Store.set
              (getOrCreate store (resolveSessionId input.session_id freshId)
                 input.workspace_id now).2
              (resolveSessionId input.session_id freshId)
              (stepSession (getOrCreate store (resolveSessionId input.session_id freshId)
                  input.workspace_id now).1 bytes) := by
  cases ha : input.audio_chunk with
  | none =>
      rw [transcribe_none store input freshId now ha] at h
      simp at h
  | some bytes =>
      by_cases h0 : bytes.length = 0
      · rw [transcribe_nil store input freshId now bytes ha h0] at h
        simp at h
      · by_cases hw : input.workspace_id = ""
        · rw [transcribe_empty_ws store input freshId now bytes ha h0 hw] at h
          simp at h
        · by_cases hm : (getOrCreate store (resolveSessionId input.session_id freshId)
              input.workspace_id now).1.workspace_id = input.workspace_id
          · rw [transcribe_ok_eq store input freshId now bytes ha h0 hw hm] at h
            simp only [Prod.mk.injEq, Except.ok.injEq] at h
            obtain ⟨⟨hres, hev⟩, hst⟩ := h
            exact ⟨bytes, rfl, h0, hw, hm, hres.symm, hev.symm, hst.symm⟩
          · rw [transcribe_mismatch_eq store input freshId now bytes ha h0 hw hm] at h
            simp at h

/-- Claim C1: for every successfully processed chunk, the returned `is_final`
is true exactly when the session's post-increment chunk count is at least 5 or
the mean of the chunk's byte values is below 10; in particular every chunk
from the 5th onward, and every near-silent chunk, is final. -/
theorem c1_finality_iff (store : Store) (input : TranscribeChunkInput)
    (freshId : String) (now : Nat) (bytes : List Nat) (res : TranscriptionResult)
    (ev : List (String × Nat)) (st' : Store) (s' : Session)
    (ha : input.audio_chunk = some bytes)
    (h : transcribeMeetingChunk store input freshId now = (Except.ok (res, ev), st'))
    (hs : Store.get st' res.session_id = some s') :
    res.is_final = true ↔ (5 ≤ s'.chunk_count ∨ meanAmplitude bytes < 10) := by
  obtain ⟨b, hb, h0, hw, hm, hres, hev, hst⟩ :=
    transcribe_ok_inv store input freshId now res ev st' h
  rw [ha] at hb
  injection hb with hb
  subst hb
  subst hst
  subst hres
  dsimp only at hs ⊢
  rw [Store.get_set_self] at hs
  injection hs with hs
  subst hs
  dsimp only [stepSession]
  exact shouldMarkAsFinal_true_iff bytes _ h0

set_option maxRecDepth 40000

/-- Witness for C1 at a concrete near-silent first chunk. -/
theorem c1_finality_iff_witness :
    ((⟨some (List.replicate 150 0), "w1", none⟩ : TranscribeChunkInput).audio_chunk =
      some (List.replicate 150 0)) ∧
    (transcribeMeetingChunk [] ⟨some (List.replicate 150 0), "w1", none⟩ "f1" 0 =
      (Except.ok (⟨"Hello", "f1", true⟩, [("f1", 5000)]),
       [("f1", ⟨"w1", "Hello", 1, 0⟩)])) ∧
    (Store.get [("f1", ⟨"w1", "Hello", 1, 0⟩)] "f1" = some ⟨"w1", "Hello", 1, 0⟩) ∧
    ((⟨"Hello", "f1", true⟩ : TranscriptionResult).is_final = true ↔
      (5 ≤ (⟨"w1", "Hello", 1, 0⟩ : Session).chunk_count ∨
        meanAmplitude (List.replicate 150 0) < 10)) :=
  ⟨rfl, rfl, rfl,
   c1_finality_iff [] ⟨some (List.replicate 150 0), "w1", none⟩ "f1" 0
     (List.replicate 150 0) ⟨"Hello", "f1", true⟩ [("f1", 5000)]
     [("f1", ⟨"w1", "Hello", 1, 0⟩)] ⟨"w1", "Hello", 1, 0⟩ rfl rfl rfl⟩

/-- Claim C4: on fragments of at least 100 bytes the source classifier agrees
exactly with the spec's fixed token table over the mean-amplitude buckets. -/
theorem c4_classifier_table (bytes : List Nat) (p : Nat) (h : 100 ≤ bytes.length) :
    processAudioChunk bytes p = specClassifierToken bytes p := by
  have h0 : bytes.length ≠ 0 := by omega
  unfold processAudioChunk specClassifierToken
  rw [if_neg (by omega : ¬ bytes.length < 100)]
  by_cases h50 : byteSum bytes < 50 * bytes.length
  · rw [if_pos h50, if_pos ((mean_lt50_iff bytes h0).mpr h50)]
  · rw [if_neg h50, if_neg (fun hc => h50 ((mean_lt50_iff bytes h0).mp hc))]
    by_cases h100 : byteSum bytes < 100 * bytes.length
    · rw [if_pos h100, if_pos ((mean_lt100_iff bytes h0).mpr h100)]
    · rw [if_neg h100, if_neg (fun hc => h100 ((mean_lt100_iff bytes h0).mp hc))]
      by_cases h150 : byteSum bytes < 150 * bytes.length
      · rw [if_pos h150, if_pos ((mean_lt150_iff bytes h0).mpr h150)]
      · rw [if_neg h150, if_neg (fun hc => h150 ((mean_lt150_iff bytes h0).mp hc))]

/-- Witness for C4 at a concrete 120-byte fragment of mean 160. -/
theorem c4_classifier_table_witness :
    100 ≤ (List.replicate 120 160).length ∧
    processAudioChunk (List.replicate 120 160) 1 =
      specClassifierToken (List.replicate 120 160) 1 :=
  ⟨by decide, c4_classifier_table (List.replicate 120 160) 1 (by decide)⟩

/-- Claim C5: the handler fails with `InvalidInput` exactly when the audio
fragment is absent or empty or the workspace id is empty, and every such
failure leaves the store untouched. -/
theorem c5_invalid_input_iff (store : Store) (input : TranscribeChunkInput)
    (freshId : String) (now : Nat) :
    ((transcribeMeetingChunk store input freshId now).1 =
        Except.error TError.invalidInput ↔
      (input.audio_chunk = none ∨ input.audio_chunk = some [] ∨
        input.workspace_id = "")) ∧
    ((transcribeMeetingChunk store input freshId now).1 =
        Except.error TError.invalidInput →
      (transcribeMeetingChunk store input freshId now).2 = store) := by
  cases ha : input.audio_chunk with
  | none =>
      rw [transcribe_none store input freshId now ha]
      simp
  | some bytes =>
      by_cases h0 : bytes.length = 0
      · rw [List.length_eq_zero] at h0
        rw [transcribe_nil store input freshId now bytes ha (by simp [h0])]
        simp [h0]
      · by_cases hw : input.workspace_id = ""
        · rw [transcribe_empty_ws store input freshId now bytes ha h0 hw]
          simp [hw]
        · by_cases hm : (getOrCreate store (resolveSessionId input.session_id freshId)
              input.workspace_id now).1.workspace_id = input.workspace_id
          · rw [transcribe_ok_eq store input freshId now bytes ha h0 hw hm]
            constructor
            · constructor
              · intro hcon
                simp at hcon
              · intro hc
                exfalso
                rcases hc with hc | hc | hc
                · exact Option.noConfusion hc
                · injection hc with hc
                  exact h0 (by simp [hc])
                · exact hw hc
            · intro hcon
              simp at hcon
          · rw [transcribe_mismatch_eq store input freshId now bytes ha h0 hw hm]
            constructor
            · constructor
              · intro hcon
                simp at hcon
              · intro hc
                exfalso
                rcases hc with hc | hc | hc
                · exact Option.noConfusion hc
                · injection hc with hc
                  exact h0 (by simp [hc])
                · exact hw hc
            · intro hcon
              simp at hcon

/-- Claim C3: a successful chunk extends the session's accumulated text by at
most one appended non-empty token, with a single separating space and no
leading space on an empty accumulator; earlier text is never altered. -/
theorem c3_monotonic_append (store : Store) (input : TranscribeChunkInput)
    (freshId : String) (now : Nat) (res : TranscriptionResult)
    (ev : List (String × Nat)) (st' : Store) (s' : Session)
    (h : transcribeMeetingChunk store input freshId now = (Except.ok (res, ev), st'))
    (hs : Store.get st' res.session_id = some s') :
    s'.accumulated_text = priorText store res.session_id ∨
      ∃ tok, tok ≠ "" ∧
        s'.accumulated_text = appendToken (priorText store res.session_id) tok := by
  obtain ⟨bytes, ha, h0, hw, hm, hres, hev, hst⟩ :=
    transcribe_ok_inv store input freshId now res ev st' h
  subst hst
  subst hres
  dsimp only at hs ⊢
  rw [Store.get_set_self] at hs
  injection hs with hs
  subst hs
  rw [← getOrCreate_fst_text store (resolveSessionId input.session_id freshId)
        input.workspace_id now]
  dsimp only [stepSession]
  by_cases ht : trimString (processAudioChunk bytes
      ((getOrCreate store (resolveSessionId input.session_id freshId)
          input.workspace_id now).1.chunk_count + 1)) = ""
  · rw [if_pos ht]
    left
    rfl
  · rw [if_neg ht]
    right
    refine ⟨processAudioChunk bytes
      ((getOrCreate store (resolveSessionId input.session_id freshId)
          input.workspace_id now).1.chunk_count + 1), ?_, rfl⟩
    intro he
    exact ht (by rw [he]; rfl)

/-- Witness for C3 at a concrete second chunk of an existing session. -/
theorem c3_monotonic_append_witness :
    (⟨"w3", "Welcome to the meeting", 2, 0⟩ : Session).accumulated_text =
        priorText [("s3", ⟨"w3", "Welcome", 1, 0⟩)]
          (⟨"Welcome to the meeting", "s3", false⟩ : TranscriptionResult).session_id ∨
      ∃ tok, tok ≠ "" ∧
        (⟨"w3", "Welcome to the meeting", 2, 0⟩ : Session).accumulated_text =
          appendToken (priorText [("s3", ⟨"w3", "Welcome", 1, 0⟩)]
            (⟨"Welcome to the meeting", "s3", false⟩ : TranscriptionResult).session_id) tok :=
  c3_monotonic_append [("s3", ⟨"w3", "Welcome", 1, 0⟩)]
    ⟨some (List.replicate 100 120), "w3", some "s3"⟩ "f3" 0
    ⟨"Welcome to the meeting", "s3", false⟩ []
    [("s3", ⟨"w3", "Welcome to the meeting", 2, 0⟩)]
    ⟨"w3", "Welcome to the meeting", 2, 0⟩ rfl rfl

/-- Claim C7 (amended): every successful call returns the session's entire
accumulated text after this chunk's mutation as `partial_transcript`, and
returns the caller-supplied session id verbatim when a non-empty one was
given; when the id is absent or empty it returns the freshly generated one. -/
theorem c7_result_shape (store : Store) (input : TranscribeChunkInput)
    (freshId : String) (now : Nat) (res : TranscriptionResult)
    (ev : List (String × Nat)) (st' : Store) (s' : Session)
    (h : transcribeMeetingChunk store input freshId now = (Except.ok (res, ev), st'))
    (hs : Store.get st' res.session_id = some s') :
    res.partial_transcript = s'.accumulated_text ∧
    (∀ sid, input.session_id = some sid → sid ≠ "" → res.session_id = sid) ∧
    (input.session_id = none → res.session_id = freshId) ∧
    (input.session_id = some "" → res.session_id = freshId) := by
  obtain ⟨bytes, ha, h0, hw, hm, hres, hev, hst⟩ :=
    transcribe_ok_inv store input freshId now res ev st' h
  subst hst
  subst hres
  dsimp only at hs ⊢
  rw [Store.get_set_self] at hs
  injection hs with hs
  subst hs
  refine ⟨rfl, ?_, ?_, ?_⟩
  · intro sid hsid hne
    simp [resolveSessionId, hsid, hne]
  · intro hsid
    simp [resolveSessionId, hsid]
  · intro hsid
    simp [resolveSessionId, hsid]

/-- Counterexample to C7 as stated: the caller supplies the session id `""`,
yet the returned session id is the freshly generated `"fresh-id"`, not the
supplied value verbatim (the source treats the empty string as falsy). -/
theorem c7_counterexample :
    (⟨some (List.replicate 100 0), "w7", some ""⟩ : TranscribeChunkInput).session_id =
      some "" ∧
    transcribeMeetingChunk [] ⟨some (List.replicate 100 0), "w7", some ""⟩
        "fresh-id" 0 =
      (Except.ok (⟨"Hello", "fresh-id", true⟩, [("fresh-id", 5000)]),
       [("fresh-id", ⟨"w7", "Hello", 1, 0⟩)]) ∧
    ("fresh-id" : String) ≠ "" :=
  ⟨rfl, rfl, by decide⟩

/-- Witness for C7 at a concrete call with a non-empty supplied session id. -/
theorem c7_result_shape_witness :
    (⟨"Welcome", "s7", false⟩ : TranscriptionResult).partial_transcript =
      (⟨"w7a", "Welcome", 1, 0⟩ : Session).accumulated_text ∧
    (∀ sid, (⟨some (List.replicate 100 70), "w7a", some "s7"⟩ :
        TranscribeChunkInput).session_id = some sid → sid ≠ "" →
      (⟨"Welcome", "s7", false⟩ : TranscriptionResult).session_id = sid) ∧
    ((⟨some (List.replicate 100 70), "w7a", some "s7"⟩ :
        TranscribeChunkInput).session_id = none →
      (⟨"Welcome", "s7", false⟩ : TranscriptionResult).session_id = "f7") ∧
    ((⟨some (List.replicate 100 70), "w7a", some "s7"⟩ :
        TranscribeChunkInput).session_id = some "" →
      (⟨"Welcome", "s7", false⟩ : TranscriptionResult).session_id = "f7") :=
  c7_result_shape [] ⟨some (List.replicate 100 70), "w7a", some "s7"⟩ "f7" 0
    ⟨"Welcome", "s7", false⟩ [] [("s7", ⟨"w7a", "Welcome", 1, 0⟩)]
    ⟨"w7a", "Welcome", 1, 0⟩ rfl rfl

/-- Claim C8: a final chunk does not remove its session synchronously — right
after the call the session is still stored with its updated accumulated text,
and removal is merely scheduled with the fixed 5000 ms delay. -/
theorem c8_no_sync_delete (store : Store) (input : TranscribeChunkInput)
    (freshId : String) (now : Nat) (res : TranscriptionResult)
    (ev : List (String × Nat)) (st' : Store)
    (h : transcribeMeetingChunk store input freshId now = (Except.ok (res, ev), st'))
    (hf : res.is_final = true) :
    Option.map Session.accumulated_text (Store.get st' res.session_id) =
      some res.partial_transcript ∧
    ev = [(res.session_id, 5000)] := by
  obtain ⟨bytes, ha, h0, hw, hm, hres, hev, hst⟩ :=
    transcribe_ok_inv store input freshId now res ev st' h
  subst hst
  subst hev
  subst hres
  dsimp only at hf ⊢
  rw [Store.get_set_self, if_pos hf]
  exact ⟨rfl, rfl⟩

/-- Witness for C8 at a concrete near-silent (hence final) first chunk. -/
theorem c8_no_sync_delete_witness :
    Option.map Session.accumulated_text
        (Store.get [("f8", ⟨"w8", "Hello", 1, 0⟩)]
          (⟨"Hello", "f8", true⟩ : TranscriptionResult).session_id) =
      some (⟨"Hello", "f8", true⟩ : TranscriptionResult).partial_transcript ∧
    [("f8", (5000 : Nat))] =
      [((⟨"Hello", "f8", true⟩ : TranscriptionResult).session_id, 5000)] :=
  c8_no_sync_delete [] ⟨some (List.replicate 200 3), "w8", none⟩ "f8" 0
    ⟨"Hello", "f8", true⟩ [("f8", 5000)] [("f8", ⟨"w8", "Hello", 1, 0⟩)] rfl rfl

/-- Claim C9: a zero-length fragment is rejected with `InvalidInput` before
any classification, so every fragment a successful call classifies has
positive length and the finality mean's denominator is nonzero. -/
theorem c9_no_zero_length_mean (store : Store) (input : TranscribeChunkInput)
    (freshId : String) (now : Nat) :
    (input.audio_chunk = some [] →
      transcribeMeetingChunk store input freshId now =
        (Except.error TError.invalidInput, store)) ∧
    (∀ res ev st',
      transcribeMeetingChunk store input freshId now = (Except.ok (res, ev), st') →
      ∃ bytes, input.audio_chunk = some bytes ∧ 0 < bytes.length ∧
        ((bytes.length : ℚ) ≠ 0)) := by
  constructor
  · intro ha
    exact transcribe_nil store input freshId now [] ha rfl
  · intro res ev st' h
    obtain ⟨bytes, ha, h0, -, -, -, -, -⟩ :=
      transcribe_ok_inv store input freshId now res ev st' h
    refine ⟨bytes, ha, Nat.pos_of_ne_zero h0, ?_⟩
    exact_mod_cast h0

/-- Witness for C9: a concrete empty fragment is rejected, and a concrete
successful call classified a fragment of positive length. -/
theorem c9_no_zero_length_mean_witness :
    transcribeMeetingChunk [] ⟨some [], "w9a", none⟩ "f9a" 0 =
      (Except.error TError.invalidInput, []) ∧
    (∃ bytes, (⟨some (List.replicate 100 200), "w9b", none⟩ :
        TranscribeChunkInput).audio_chunk = some bytes ∧ 0 < bytes.length ∧
      ((bytes.length : ℚ) ≠ 0)) :=
  ⟨(c9_no_zero_length_mean [] ⟨some [], "w9a", none⟩ "f9a" 0).1 rfl,
   (c9_no_zero_length_mean [] ⟨some (List.replicate 100 200), "w9b", none⟩ "f9b" 0).2
     ⟨"Thank you", "f9b", false⟩ [] [("f9b", ⟨"w9b", "Thank you", 1, 0⟩)] rfl⟩

/-- Counterexample to C2 as stated: a call whose supplied session id names an
existing session of a different workspace, but whose audio fragment is absent,
fails with `InvalidInput`, not `WorkspaceMismatch`. -/
theorem c2_counterexample :
    Store.get [("s2", ⟨"A", "", 0, 0⟩)] "s2" = some ⟨"A", "", 0, 0⟩ ∧
    ("A" : String) ≠ "B" ∧
    (transcribeMeetingChunk [("s2", ⟨"A", "", 0, 0⟩)] ⟨none, "B", some "s2"⟩
        "f2" 0).1 = Except.error TError.invalidInput ∧
    TError.invalidInput ≠ TError.workspaceMismatch :=
  ⟨rfl, by decide, rfl, by decide⟩

/-- Claim C2 (amended): a call that passes input validation and supplies a
non-empty session id bound to a different workspace fails with
`WorkspaceMismatch`, leaving the whole store exactly as it was. -/
theorem c2_workspace_mismatch (store : Store) (input : TranscribeChunkInput)
    (freshId : String) (now : Nat) (bytes : List Nat) (sid : String) (s : Session)
    (ha : input.audio_chunk = some bytes) (h0 : bytes.length ≠ 0)
    (hw : input.workspace_id ≠ "")
    (hsid : input.session_id = some sid) (hne : sid ≠ "")
    (hs : Store.get store sid = some s)
    (hm : s.workspace_id ≠ input.workspace_id) :
    transcribeMeetingChunk store input freshId now =
      (Except.error TError.workspaceMismatch, store) := by
  have hr : resolveSessionId input.session_id freshId = sid := by
    simp [resolveSessionId, hsid, hne]
  have hgc : getOrCreate store (resolveSessionId input.session_id freshId)
      input.workspace_id now = (s, store) := by
    rw [hr]
    exact getOrCreate_some store sid input.workspace_id now s hs
  rw [transcribe_mismatch_eq store input freshId now bytes ha h0 hw
        (by rw [hgc]; exact hm)]
  rw [hgc]

/-- Witness for C2 (amended) at a concrete mismatched call. -/
theorem c2_workspace_mismatch_witness :
    transcribeMeetingChunk [("s2w", ⟨"A", "hi", 2, 7⟩)]
        ⟨some [5], "B", some "s2w"⟩ "f2w" 9 =
      (Except.error TError.workspaceMismatch, [("s2w", ⟨"A", "hi", 2, 7⟩)]) :=
  c2_workspace_mismatch [("s2w", ⟨"A", "hi", 2, 7⟩)] ⟨some [5], "B", some "s2w"⟩
    "f2w" 9 [5] "s2w" ⟨"A", "hi", 2, 7⟩ rfl (by decide) (by decide) rfl
    (by decide) rfl (by decide)

/-- Counterexample to C6 as stated: the empty fragment is shorter than 100
bytes, yet the call is rejected with `InvalidInput` instead of succeeding. -/
theorem c6_counterexample :
    ([] : List Nat).length < 100 ∧
    (transcribeMeetingChunk [] ⟨some [], "w6", none⟩ "f6" 0).1 =
      Except.error TError.invalidInput :=
  ⟨by decide, rfl⟩

/-- Claim C6 (amended): a call that passes validation and the workspace check
and carries a non-empty fragment shorter than 100 bytes succeeds, leaves the
accumulated text unchanged, and still increments the chunk count by one. -/
theorem c6_short_fragment (store : Store) (input : TranscribeChunkInput)
    (freshId : String) (now : Nat) (bytes : List Nat) (s0 : Session)
    (store1 : Store)
    (ha : input.audio_chunk = some bytes) (h0 : bytes.length ≠ 0)
    (hlen : bytes.length < 100)
    (hw : input.workspace_id ≠ "")
    (hgc : getOrCreate store (resolveSessionId input.session_id freshId)
        input.workspace_id now = (s0, store1))
    (hm : s0.workspace_id = input.workspace_id) :
    transcribeMeetingChunk store input freshId now =
      (Except.ok
        (⟨s0.accumulated_text, resolveSessionId input.session_id freshId,
          shouldMarkAsFinal bytes (s0.chunk_count + 1)⟩,
         if shouldMarkAsFinal bytes (s0.chunk_count + 1) then
           [(resolveSessionId input.session_id freshId, 5000)]
         else []),
       Store.set store1 (resolveSessionId input.session_id freshId)
         { s0 with chunk_count := s0.chunk_count + 1 }) := by
  have htok : processAudioChunk bytes (s0.chunk_count + 1) = "" := by
    unfold processAudioChunk
    rw [if_pos hlen]
  have hstep : stepSession s0 bytes = { s0 with chunk_count := s0.chunk_count + 1 } := by
    unfold stepSession
    rw [htok, if_pos (show trimString "" = "" from rfl)]
  rw [transcribe_ok_eq store input freshId now bytes ha h0 hw
        (by rw [hgc]; exact hm)]
  rw [hgc]
  dsimp only
  rw [hstep]

/-- Witness for C6 (amended) at a concrete 1-byte chunk of an existing session. -/
theorem c6_short_fragment_witness :
    transcribeMeetingChunk [("s6", ⟨"w6", "Hello", 1, 5⟩)]
        ⟨some [42], "w6", some "s6"⟩ "f6w" 9 =
      (Except.ok (⟨"Hello", "s6", false⟩, []),
       [("s6", ⟨"w6", "Hello", 2, 5⟩)]) :=
  c6_short_fragment [("s6", ⟨"w6", "Hello", 1, 5⟩)] ⟨some [42], "w6", some "s6"⟩
    "f6w" 9 [42] ⟨"w6", "Hello", 1, 5⟩ [("s6", ⟨"w6", "Hello", 1, 5⟩)]
    rfl (by decide) (by decide) (by decide) rfl rfl

/-- Counterexample to C10 as stated: a session id absent from the store is
supplied, yet the call still fails (the audio fragment is empty), so an
absent id does not make the call failure-free. -/
theorem c10_counterexample :
    Store.get [] "ghost" = none ∧
    (transcribeMeetingChunk [] ⟨some [], "w10", some "ghost"⟩ "f10" 0).1 =
      Except.error TError.invalidInput :=
  ⟨rfl, rfl⟩

/-- Claim C10 (amended): a call that passes input validation and supplies a
non-empty session id absent from the store never fails: a fresh session is
created under exactly that id with chunk count 0, empty accumulated text and
the request's workspace id, and the call restarts accumulation from scratch,
leaving the session stored with chunk count 1. -/
theorem c10_absent_session_restart (store : Store) (input : TranscribeChunkInput)
    (freshId : String) (now : Nat) (bytes : List Nat) (sid : String)
    (ha : input.audio_chunk = some bytes) (h0 : bytes.length ≠ 0)
    (hw : input.workspace_id ≠ "")
    (hsid : input.session_id = some sid) (hne : sid ≠ "")
    (habs : Store.get store sid = none) :
    getOrCreate store sid input.workspace_id now =
      (⟨input.workspace_id, "", 0, now⟩,
       Store.set store sid ⟨input.workspace_id, "", 0, now⟩) ∧
    transcribeMeetingChunk store input freshId now =
      (Except.ok
        (⟨(if trimString (processAudioChunk bytes 1) = "" then ""
           else processAudioChunk bytes 1), sid, shouldMarkAsFinal bytes 1⟩,
         if shouldMarkAsFinal bytes 1 then [(sid, 5000)] else []),
       Store.set store sid
         ⟨input.workspace_id,
          (if trimString (processAudioChunk bytes 1) = "" then ""
           else processAudioChunk bytes 1), 1, now⟩) := by
  have hr : resolveSessionId input.session_id freshId = sid := by
    simp [resolveSessionId, hsid, hne]
  have hgc := getOrCreate_none store sid input.workspace_id now habs
  refine ⟨hgc, ?_⟩
  rw [transcribe_ok_eq store input freshId now bytes ha h0 hw (by rw [hr, hgc])]
  rw [hr, hgc]
  dsimp only
  rw [Store.set_set]
  rfl

/-- Witness for C10 (amended) at a concrete absent session id. -/
theorem c10_absent_session_restart_witness :
    (getOrCreate [("other", ⟨"wo", "x", 2, 1⟩)] "ghost2" "w10" 3 =
      (⟨"w10", "", 0, 3⟩,
       [("other", ⟨"wo", "x", 2, 1⟩), ("ghost2", ⟨"w10", "", 0, 3⟩)])) ∧
    transcribeMeetingChunk [("other", ⟨"wo", "x", 2, 1⟩)]
        ⟨some (List.replicate 100 0), "w10", some "ghost2"⟩ "f10w" 3 =
      (Except.ok (⟨"Hello", "ghost2", true⟩, [("ghost2", 5000)]),
       [("other", ⟨"wo", "x", 2, 1⟩), ("ghost2", ⟨"w10", "Hello", 1, 3⟩)]) :=
  c10_absent_session_restart [("other", ⟨"wo", "x", 2, 1⟩)]
    ⟨some (List.replicate 100 0), "w10", some "ghost2"⟩ "f10w" 3
    (List.replicate 100 0) "ghost2" rfl (by decide) (by decide) rfl
    (by decide) rfl

/-- Witness for C5 at a concrete absent-audio call. -/
theorem c5_invalid_input_iff_witness :
    (((transcribeMeetingChunk [] ⟨none, "w5", none⟩ "f5" 0).1 =
        Except.error TError.invalidInput ↔
      ((⟨none, "w5", none⟩ : TranscribeChunkInput).audio_chunk = none ∨
       (⟨none, "w5", none⟩ : TranscribeChunkInput).audio_chunk = some [] ∨
       (⟨none, "w5", none⟩ : TranscribeChunkInput).workspace_id = "")) ∧
     ((transcribeMeetingChunk [] ⟨none, "w5", none⟩ "f5" 0).1 =
        Except.error TError.invalidInput →
      (transcribeMeetingChunk [] ⟨none, "w5", none⟩ "f5" 0).2 = [])) :=
  c5_invalid_input_iff [] ⟨none, "w5", none⟩ "f5" 0
